import Mathlib

/-!
Verification of the triage/handoff/guardrail behaviour of the
`openai_agent_sdk_samples` repository against its specification.

Part 1: shallow embedding of the guardrail functions of
`0206_Guardrail.py` and `0401_Guardrail.py`.  The LLM-backed predicate
evaluator (`Runner.run` on the guardrail agent) is opaque; it is modelled
as a parameter of type `Except String α`: `Except.ok` is a normal
structured output, `Except.error` is the evaluator raising an exception
(the `except Exception` branch of the Python code).  Confidence scores
(Python floats compared against the literal `0.7`) are modelled as
rationals; only order comparisons against the literal occur, so the
comparison semantics are preserved.
-/

/-- `InappropriateContentOutput` of `0206_Guardrail.py`: pydantic model of
the content-moderation guardrail agent. -/
structure InappropriateContentOutput where
  is_inappropriate : Bool
  reason : String
  confidence_score : ℚ
deriving DecidableEq, Repr

/-- `ProfessionalityOutput` of `0206_Guardrail.py`: pydantic model of the
professionality-check guardrail agent (`severity` is the string
"low"/"medium"/"high"). -/
structure ProfessionalityOutput where
  is_professional : Bool
  issues : List String
  severity : String
deriving DecidableEq, Repr

/-- `MathHomeworkDetection` of `0401_Guardrail.py`. -/
structure MathHomeworkDetection where
  is_math_homework : Bool
  reasoning : String
  confidence_score : ℚ
deriving DecidableEq, Repr

/-- `InappropriateContentDetection` of `0401_Guardrail.py` (`severity` is
the string "low"/"medium"/"high"). -/
structure InappropriateContentDetection where
  is_inappropriate : Bool
  reasoning : String
  severity : String
deriving DecidableEq, Repr

/-- The `output_info` value carried by a guardrail result: either the
structured detection output, or the `{"error": str(e)}` dict built in the
exception branch. -/
inductive GuardrailInfo (α : Type)
  | result (out : α)
  | error (msg : String)
deriving DecidableEq, Repr

/-- `GuardrailFunctionOutput` of the agents SDK, as used by these scripts:
an `output_info` payload plus the `tripwire_triggered` flag. -/
structure GuardrailFunctionOutput (ι : Type) where
  output_info : ι
  tripwire_triggered : Bool
deriving DecidableEq, Repr

/-- The `output_info` dict built in the success branch of the two
guardrails of `0401_Guardrail.py`:
`{"detection_type": …, "result": …, "tripwire_triggered": …}`. -/
structure DetectionInfo (α : Type) where
  detection_type : String
  result : α
  tripwire_triggered : Bool
deriving DecidableEq, Repr

/-- `inappropriate_content_guardrail` of `0206_Guardrail.py`
(registered with `@input_guardrail`).  Success branch: tripwire iff
`output.is_inappropriate and output.confidence_score > 0.7`.  Exception
branch: tripwire NOT triggered. -/
def inappropriate_content_guardrail (run : Except String InappropriateContentOutput) :
    GuardrailFunctionOutput (GuardrailInfo InappropriateContentOutput) :=
  match run with
  | Except.ok output =>
    { output_info := GuardrailInfo.result output,
      tripwire_triggered :=
        output.is_inappropriate && decide (output.confidence_score > 7/10) }
  | Except.error e =>
    { output_info := GuardrailInfo.error e,
      tripwire_triggered := false }

/-- `professionality_guardrail` of `0206_Guardrail.py`
(registered with `@output_guardrail`).  Success branch: tripwire iff
`not check_result.is_professional and check_result.severity == "high"`.
Exception branch: tripwire NOT triggered. -/
def professionality_guardrail (run : Except String ProfessionalityOutput) :
    GuardrailFunctionOutput (GuardrailInfo ProfessionalityOutput) :=
  match run with
  | Except.ok check_result =>
    { output_info := GuardrailInfo.result check_result,
      tripwire_triggered :=
        !check_result.is_professional && (check_result.severity == "high") }
  | Except.error e =>
    { output_info := GuardrailInfo.error e,
      tripwire_triggered := false }

/-- `math_homework_input_guardrail` of `0401_Guardrail.py`
(registered with `@input_guardrail`).  Success branch: tripwire iff
`detection_result.is_math_homework and detection_result.confidence_score >= 0.7`.
Exception branch: tripwire IS triggered. -/
def math_homework_input_guardrail (run : Except String MathHomeworkDetection) :
    GuardrailFunctionOutput (GuardrailInfo (DetectionInfo MathHomeworkDetection)) :=
  match run with
  | Except.ok detection_result =>
    let tripwire_should_trigger :=
      detection_result.is_math_homework &&
        decide (detection_result.confidence_score ≥ 7/10)
    { output_info := GuardrailInfo.result
        { detection_type := "math_homework",
          result := detection_result,
          tripwire_triggered := tripwire_should_trigger },
      tripwire_triggered := tripwire_should_trigger }
  | Except.error e =>
    { output_info := GuardrailInfo.error e,
      tripwire_triggered := true }

/-- `inappropriate_content_output_guardrail` of `0401_Guardrail.py`
(registered with `@output_guardrail`).  Success branch: tripwire iff
`detection_result.is_inappropriate and detection_result.severity in ["medium", "high"]`.
Exception branch: tripwire IS triggered. -/
def inappropriate_content_output_guardrail (run : Except String InappropriateContentDetection) :
    GuardrailFunctionOutput (GuardrailInfo (DetectionInfo InappropriateContentDetection)) :=
  match run with
  | Except.ok detection_result =>
    let tripwire_should_trigger :=
      detection_result.is_inappropriate &&
        (["medium", "high"].contains detection_result.severity)
    { output_info := GuardrailInfo.result
        { detection_type := "inappropriate_content",
          result := detection_result,
          tripwire_triggered := tripwire_should_trigger },
      tripwire_triggered := tripwire_should_trigger }
  | Except.error e =>
    { output_info := GuardrailInfo.error e,
      tripwire_triggered := true }

/-- Claim C1, counterexample.  The claim says a Guard check with
direction=output whose predicate evaluator raises returns a blocking
verdict (fails CLOSED), and a check with direction=input returns a
non-blocking verdict (fails OPEN).  Both halves fail on the code:
`professionality_guardrail` (an `@output_guardrail` of
`0206_Guardrail.py`) returns `tripwire_triggered = false` when its
evaluator raises, and `math_homework_input_guardrail` (an
`@input_guardrail` of `0401_Guardrail.py`) returns
`tripwire_triggered = true` when its evaluator raises. -/
theorem claim1_counterexample :
    (professionality_guardrail (Except.error "boom")).tripwire_triggered = false
    ∧ (math_homework_input_guardrail (Except.error "boom")).tripwire_triggered = true :=
  ⟨rfl, rfl⟩

/-- Claim C1, amended: the failure policy is uniform per script, not per
direction.  In `0206_Guardrail.py` both the input-direction and the
output-direction guardrail fail OPEN (an evaluator exception yields a
verdict that does not block); in `0401_Guardrail.py` both fail CLOSED
(an evaluator exception yields a verdict that blocks). -/
theorem claim1_failure_policy_per_script (e : String) :
    (inappropriate_content_guardrail (Except.error e)).tripwire_triggered = false
    ∧ (professionality_guardrail (Except.error e)).tripwire_triggered = false
    ∧ (math_homework_input_guardrail (Except.error e)).tripwire_triggered = true
    ∧ (inappropriate_content_output_guardrail (Except.error e)).tripwire_triggered = true :=
  ⟨rfl, rfl, rfl, rfl⟩

/-- Claim C4, counterexample.  The claim says `blocked` is true iff at
least one predicate's severity or confidence is greater than or equal to
its trigger threshold.  In `0206_Guardrail.py` the input guardrail blocks
only on a strictly greater confidence (`> 0.7`): a predicate output
flagged inappropriate with confidence exactly at the threshold `0.7`
satisfies the claim's `≥` condition yet does not block. -/
theorem claim4_counterexample :
    (inappropriate_content_guardrail
      (Except.ok { is_inappropriate := true, reason := "r", confidence_score := 7/10 })
      ).tripwire_triggered = false
    ∧ ((7 : ℚ)/10 ≥ 7/10) := by
  constructor
  · norm_num [inappropriate_content_guardrail]
  · exact le_refl _

/-- Claim C4, amended: each guardrail blocks exactly when its predicate's
boolean flag is set AND its score clears a per-script hardcoded
comparison — strict `confidence > 0.7` in `0206_Guardrail.py`'s input
guardrail, `severity = "high"` in its output guardrail,
`confidence ≥ 0.7` in `0401_Guardrail.py`'s input guardrail, and
`severity ∈ {"medium", "high"}` in its output guardrail.  The thresholds
are script-local literals, not a single configurable threshold per
predicate, and a score at or above a threshold does not block unless the
boolean flag is also set. -/
theorem claim4_blocking_conditions (a : InappropriateContentOutput)
    (p : ProfessionalityOutput) (m : MathHomeworkDetection)
    (d : InappropriateContentDetection) :
    ((inappropriate_content_guardrail (Except.ok a)).tripwire_triggered = true ↔
      a.is_inappropriate = true ∧ a.confidence_score > 7/10)
    ∧ ((professionality_guardrail (Except.ok p)).tripwire_triggered = true ↔
      p.is_professional = false ∧ p.severity = "high")
    ∧ ((math_homework_input_guardrail (Except.ok m)).tripwire_triggered = true ↔
      m.is_math_homework = true ∧ m.confidence_score ≥ 7/10)
    ∧ ((inappropriate_content_output_guardrail (Except.ok d)).tripwire_triggered = true ↔
      d.is_inappropriate = true ∧ (d.severity = "medium" ∨ d.severity = "high")) := by
  refine ⟨?_, ?_, ?_, ?_⟩
  · simp [inappropriate_content_guardrail]
  · simp [professionality_guardrail, Bool.not_eq_true']
  · simp [math_homework_input_guardrail]
  · simp [inappropriate_content_output_guardrail, List.contains, List.elem_eq_mem]

/-!
Part 2: shallow embedding of `06_CustomerService/main.py`: the airline
context, the `update_seat` and `faq_lookup_tool` function tools, and the
`on_seat_booking_handoff` hook.
-/

/-- `AirlineAgentContext` of `06_CustomerService/main.py`: four optional
string fields, all `None` at conversation start. -/
structure AirlineAgentContext where
  passenger_name : Option String
  confirmation_number : Option String
  seat_number : Option String
  flight_number : Option String
deriving DecidableEq, Repr

/-- `update_seat` of `06_CustomerService/main.py`.  The Python function
first mutates the shared context (sets `confirmation_number` and
`seat_number`), then `assert context.context.flight_number is not None`.
The returned pair is the context as left by the call together with either
the success message (`Except.ok`) or the assertion message
(`Except.error`, modelling the raised `AssertionError`). -/
def update_seat (context : AirlineAgentContext) (confirmation_number new_seat : String) :
    AirlineAgentContext × Except String String :=
  let ctx := { context with
    confirmation_number := some confirmation_number,
    seat_number := some new_seat }
  match ctx.flight_number with
  | none => (ctx, Except.error "フライト番号は必須です。")
  | some _ => (ctx, Except.ok
      ("確認番号 " ++ confirmation_number ++ " の座席を " ++ new_seat ++ " に更新しました。"))

/-- `on_seat_booking_handoff` of `06_CustomerService/main.py`: sets
`flight_number` to `f"FLT-{random.randint(100, 999)}"`.  The random draw
is external; it is passed in as the natural number `r`. -/
def on_seat_booking_handoff (r : ℕ) (context : AirlineAgentContext) : AirlineAgentContext :=
  { context with flight_number := some ("FLT-" ++ toString (100 + r % 900)) }

/-- Claim C8: `update_seat` hits its assertion exactly when the context's
`flight_number` is `None` at call time, and after
`on_seat_booking_handoff` has run on the same context (it always stores a
non-`None` flight number) the assertion branch is unreachable:
`update_seat` returns its success message with `confirmation_number` and
`seat_number` set from the arguments. -/
theorem claim8_update_seat_assert (context : AirlineAgentContext)
    (cn ns : String) (r : ℕ) :
    ((∃ e, (update_seat context cn ns).2 = Except.error e) ↔ context.flight_number = none)
    ∧ (update_seat (on_seat_booking_handoff r context) cn ns).2 = Except.ok
        ("確認番号 " ++ cn ++ " の座席を " ++ ns ++ " に更新しました。")
    ∧ (update_seat (on_seat_booking_handoff r context) cn ns).1.confirmation_number = some cn
    ∧ (update_seat (on_seat_booking_handoff r context) cn ns).1.seat_number = some ns
    ∧ (on_seat_booking_handoff r context).flight_number ≠ none := by
  refine ⟨?_, ?_, ?_, ?_, ?_⟩
  · cases h : context.flight_number <;> simp [update_seat, h]
  · simp [update_seat, on_seat_booking_handoff]
  · simp [update_seat, on_seat_booking_handoff]
  · simp [update_seat, on_seat_booking_handoff]
  · simp [on_seat_booking_handoff]

/-- Character-list prefix test, used to express Python's substring
operator `in`. -/
def isPrefixL : List Char → List Char → Bool
  | [], _ => true
  | _ :: _, [] => false
  | a :: as, b :: bs => a == b && isPrefixL as bs

/-- Character-list substring test: the needle occurs at some position of
the haystack. -/
def containsL (needle : List Char) : List Char → Bool
  | [] => isPrefixL needle []
  | c :: cs => isPrefixL needle (c :: cs) || containsL needle cs

/-- Python's `needle in hay` on strings. -/
def containsSub (needle hay : String) : Bool :=
  containsL needle.toList hay.toList

/-- Answer string of `faq_lookup_tool` for baggage questions (the two
adjacent Python string literals concatenate to one). -/
def baggageAnswer : String :=
  "飛行機にはバッグを1つ持ち込むことができます。重量は50ポンド以下、サイズは22インチ x 14インチ x 9インチである必要があります。"

/-- Answer string of `faq_lookup_tool` for seat questions. -/
def seatsAnswer : String :=
  "飛行機には120席あります。ビジネスクラスの座席は22席、エコノミークラスの座席は98席あります。非常口は4列目と16列目です。5列目から8列目はエコノミープラスで、足元に余裕があります。"

/-- Answer string of `faq_lookup_tool` for Wi-Fi questions. -/
def wifiAnswer : String :=
  "飛行機には無料Wi-Fiがあります。Airline-Wifiにご参加ください"

/-- Fallback answer string of `faq_lookup_tool`. -/
def unknownAnswer : String :=
  "申し訳ありませんが、その質問の答えは分かりません。"

/-- `faq_lookup_tool` of `06_CustomerService/main.py`: keyword tests in
source order, each `in` being Python substring containment. -/
def faq_lookup_tool (question : String) : String :=
  if containsSub "バック" question || containsSub "荷物" question then
    baggageAnswer
  else if containsSub "席" question || containsSub "飛行機" question then
    seatsAnswer
  else if containsSub "WiFi" question || containsSub "Wi-Fi" question then
    wifiAnswer
  else
    unknownAnswer

/-- Claim C9: `faq_lookup_tool` is total and pure (it is a Lean function
of the question string alone), returns one of exactly four fixed strings,
and picks them by the first matching keyword test in source order:
baggage, then seats, then Wi-Fi, then the fixed fallback. -/
theorem claim9_faq_lookup_tool_shape (question : String) :
    (faq_lookup_tool question = baggageAnswer ∨ faq_lookup_tool question = seatsAnswer
      ∨ faq_lookup_tool question = wifiAnswer ∨ faq_lookup_tool question = unknownAnswer)
    ∧ faq_lookup_tool question =
        (if containsSub "バック" question || containsSub "荷物" question then baggageAnswer
         else if containsSub "席" question || containsSub "飛行機" question then seatsAnswer
         else if containsSub "WiFi" question || containsSub "Wi-Fi" question then wifiAnswer
         else unknownAnswer) := by
  constructor
  · unfold faq_lookup_tool
    split
    · exact Or.inl rfl
    · split
      · exact Or.inr (Or.inl rfl)
      · split
        · exact Or.inr (Or.inr (Or.inl rfl))
        · exact Or.inr (Or.inr (Or.inr rfl))
  · rfl

/-!
Part 3: shallow embedding of the handoff input filters of
`0302_Handoff.py`.  `HandoffInputData.input_history` is `str | tuple` in
the SDK; the item and run-context types are opaque parameters.
-/

/-- The `input_history` field: a summary string or a tuple of history
items. -/
inductive InputHistory (Item : Type)
  | str (s : String)
  | tup (items : List Item)
deriving DecidableEq, Repr

/-- `HandoffInputData` of the agents SDK as used by `0302_Handoff.py`:
`input_history`, `pre_handoff_items`, `new_items`, `run_context`. -/
structure HandoffInputData (Item Ctx : Type) where
  input_history : InputHistory Item
  pre_handoff_items : List Item
  new_items : List Item
  run_context : Ctx
deriving DecidableEq, Repr

/-- `filter_remove_sensitive_info` of `0302_Handoff.py`: rebuilds the
`HandoffInputData` from its own four fields unchanged (its doc string
admits it removes nothing). -/
def filter_remove_sensitive_info {Item Ctx : Type} (data : HandoffInputData Item Ctx) :
    HandoffInputData Item Ctx :=
  { input_history := data.input_history,
    pre_handoff_items := data.pre_handoff_items,
    new_items := data.new_items,
    run_context := data.run_context }

/-- `filter_summary_only` of `0302_Handoff.py`: when `input_history` is a
tuple it is trimmed to `[-3:]` (its last three items, or all of them when
fewer); a string history and the other three fields pass through
unchanged. -/
def filter_summary_only {Item Ctx : Type} (data : HandoffInputData Item Ctx) :
    HandoffInputData Item Ctx :=
  let trimmed_history :=
    match data.input_history with
    | InputHistory.tup items => InputHistory.tup (items.drop (items.length - 3))
    | InputHistory.str s => InputHistory.str s
  { input_history := trimmed_history,
    pre_handoff_items := data.pre_handoff_items,
    new_items := data.new_items,
    run_context := data.run_context }

/-- Claim C10: the handoff input filters modify no field other than
`input_history`.  `filter_remove_sensitive_info` is the identity, and
`filter_summary_only` keeps `pre_handoff_items`, `new_items` and
`run_context` unchanged while replacing a tuple `input_history` by its
last three elements (a string `input_history` is unchanged). -/
theorem claim10_filters_frame {Item Ctx : Type} (data : HandoffInputData Item Ctx) :
    filter_remove_sensitive_info data = data
    ∧ (filter_summary_only data).pre_handoff_items = data.pre_handoff_items
    ∧ (filter_summary_only data).new_items = data.new_items
    ∧ (filter_summary_only data).run_context = data.run_context
    ∧ (filter_summary_only data).input_history =
        (match data.input_history with
         | InputHistory.tup items => InputHistory.tup (items.drop (items.length - 3))
         | InputHistory.str s => InputHistory.str s) := by
  refine ⟨rfl, rfl, rfl, rfl, rfl⟩

/-!
Part 4: the triage/handoff orchestrator.  The repository only configures
the imported agents SDK; the Classifier, Guard aggregation, Dispatcher
state machine, Escalator and Session of the specification have no
implementation under `src/`, so the definitions below are modelled from
the specification's own words (sections 3–5 and 8) and the claims about
them are settled against this model.  The LLM-backed pieces (handler
invocation, the classification backend, guard verdicts) are opaque
oracles passed in as parameters.
-/

/-- Modelled from the spec: the enumerated `Category` labels of the
static routing table (section 3). -/
inductive Category
  | BILLING
  | TECHNICAL
  | GENERAL
  | ESCALATION
deriving DecidableEq, Repr

/-- Modelled from the spec: the `severity` tier of a `GuardVerdict`
(section 3). -/
inductive Severity
  | low
  | medium
  | high
deriving DecidableEq, Repr

/-- Modelled from the spec: the immutable `Request` input unit
(section 3). -/
structure Request where
  text : String
  timestamp : ℕ
  session_id : ℕ
deriving DecidableEq, Repr

/-- Modelled from the spec: the `Response` output unit; `refusal` is the
inference backend's explicit inability-to-complete marker (sections 3
and 6). -/
structure Response where
  content : String
  handler_id : String
  refusal : Bool
deriving DecidableEq, Repr

/-- Modelled from the spec: a `GuardVerdict` (section 3). -/
structure GuardVerdict where
  blocked : Bool
  reason : String
  confidence : ℚ
  severity : Severity
deriving DecidableEq, Repr

/-- Modelled from the spec: one accepted history entry, a
(Request, Response, Handler-used) tuple (section 3). -/
structure Turn where
  request : Request
  response : Response
  handler_id : String
deriving DecidableEq, Repr

/-- Modelled from the spec: `SessionState` — ordered history, turn
counter and user-scoped preferences (section 3). -/
structure SessionState where
  history : List Turn
  turn_counter : ℕ
  preferences : List (String × String)
deriving DecidableEq, Repr

/-- Modelled from the spec: `append_turn`, the only path that grows the
history (section 4.5). -/
def SessionState.append_turn (s : SessionState) (req : Request) (resp : Response)
    (hid : String) : SessionState :=
  { s with
    history := s.history ++ [{ request := req, response := resp, handler_id := hid }],
    turn_counter := s.turn_counter + 1 }

/-- Modelled from the spec: `history(limit)` — `limit` truncates from the
most recent end (section 4.5). -/
def SessionState.historyWithLimit (s : SessionState) (limit : ℕ) : List Turn :=
  s.history.drop (s.history.length - limit)

/-- A sequence of `append_turn` calls, used to speak about the turns
appended over a session's lifetime. -/
def SessionState.appendMany (s : SessionState) :
    List (Request × Response × String) → SessionState
  | [] => s
  | t :: ts => (s.append_turn t.1 t.2.1 t.2.2).appendMany ts

/-- The history entry built from one element of an `appendMany` batch. -/
def mkTurn (t : Request × Response × String) : Turn :=
  { request := t.1, response := t.2.1, handler_id := t.2.2 }

/-- Modelled from the spec: the Classifier's configurable confidence
threshold, default 0.5 (section 4.1). -/
structure ClassifierConfig where
  threshold : ℚ
deriving DecidableEq, Repr

/-- The spec's default Classifier threshold (section 4.1). -/
def defaultClassifierThreshold : ℚ := 1/2

/-- Modelled from the spec: `classify(request, session)` (section 4.1).
The classification backend (an LLM call, out of scope) is passed in as an
`Except`: `Except.error` is the backend being unavailable.  On error the
function returns `(GENERAL, 0, "classifier_unavailable")`; on success it
defaults to `GENERAL` when the confidence is below the threshold.  It is
a total Lean function: it never raises. -/
def classify (cfg : ClassifierConfig)
    (backend : Except String (Category × ℚ × String)) : Category × ℚ × String :=
  match backend with
  | Except.error _ => (Category.GENERAL, 0, "classifier_unavailable")
  | Except.ok (cat, conf, rationale) =>
    if conf < cfg.threshold then (Category.GENERAL, conf, rationale)
    else (cat, conf, rationale)

/-- Modelled from the spec: the Dispatcher's per-turn terminal states
(section 4.3): `ACCEPTED` carries the accepted `Response`, `BLOCKED` the
blocking reason. -/
inductive TurnOutcome
  | ACCEPTED (resp : Response)
  | BLOCKED (reason : String)
deriving DecidableEq, Repr

/-- Modelled from the spec: the Dispatcher's configured maximum
escalation count (sections 4.3 and 4.4). -/
structure DispatcherConfig where
  maxEscalations : ℕ
deriving DecidableEq, Repr

/-- The spec's default maximum escalation count (section 4.3). -/
def defaultMaxEscalations : ℕ := 1

/-- Modelled from the spec: the HANDLING → OUTPUT_CHECKED →
{ACCEPTED, BLOCKED, ESCALATED → HANDLING} loop of one logical turn chain
(sections 4.3 and 4.4).  `g` is the output Guard, `i` invokes the handler
selected for escalation attempt `count` (attempt `0` is the originally
dispatched handler; the Escalator's fallback choice is folded into `i`).
`fuel` is the number of handler invocations still permitted; exhausting
it is `escalation_count` exceeding the maximum, which terminates in
`BLOCKED "escalation_limit_exceeded"` without invoking any Handler.  The
returned list records the attempt indices actually dispatched, for the
audit trail. -/
def runChainFuel (g : Response → GuardVerdict) (i : ℕ → Response) :
    ℕ → ℕ → TurnOutcome × List ℕ
  | 0, _ => (TurnOutcome.BLOCKED "escalation_limit_exceeded", [])
  | fuel + 1, count =>
    let resp := i count
    let v := g resp
    if v.blocked then (TurnOutcome.BLOCKED v.reason, [count])
    else if resp.refusal then
      let r := runChainFuel g i fuel (count + 1)
      (r.1, count :: r.2)
    else (TurnOutcome.ACCEPTED resp, [count])

/-- The turn chain entered at escalation count `count`: the remaining
fuel is `maxEscalations + 1 - count`, so a chain entered with
`count > maxEscalations` has no permitted invocations. -/
def runChainFrom (cfg : DispatcherConfig) (g : Response → GuardVerdict)
    (i : ℕ → Response) (count : ℕ) : TurnOutcome × List ℕ :=
  runChainFuel g i (cfg.maxEscalations + 1 - count) count

/-- A full turn chain, entered at escalation count `0`. -/
def runChain (cfg : DispatcherConfig) (g : Response → GuardVerdict)
    (i : ℕ → Response) : TurnOutcome × List ℕ :=
  runChainFrom cfg g i 0

/-- Every attempt index the chain dispatches lies below `count + fuel`. -/
theorem runChainFuel_invoked_lt (g : Response → GuardVerdict) (i : ℕ → Response) :
    ∀ (fuel count n : ℕ), n ∈ (runChainFuel g i fuel count).2 → n < count + fuel := by
  intro fuel
  induction fuel with
  | zero => intro count n hn; simp [runChainFuel] at hn
  | succ fuel ih =>
    intro count n hn
    simp only [runChainFuel] at hn
    by_cases hb : (g (i count)).blocked
    · simp [hb] at hn
      omega
    · by_cases hr : (i count).refusal
      · simp [hb, hr, List.mem_cons] at hn
        rcases hn with h | h
        · omega
        · have := ih (count + 1) n h
          omega
      · simp [hb, hr] at hn
        omega

/-- Claim C3: over a single logical turn chain the escalation count of
every dispatched attempt never exceeds the configured maximum, and a
chain entered with the count already beyond the maximum terminates in
`BLOCKED "escalation_limit_exceeded"` without dispatching any Handler. -/
theorem claim3_escalation_cap (cfg : DispatcherConfig) (g : Response → GuardVerdict)
    (i : ℕ → Response) (n : ℕ) (hn : n ∈ (runChain cfg g i).2) :
    n ≤ cfg.maxEscalations
    ∧ (∀ c, cfg.maxEscalations < c →
        runChainFrom cfg g i c = (TurnOutcome.BLOCKED "escalation_limit_exceeded", [])) := by
  constructor
  · have h := runChainFuel_invoked_lt g i (cfg.maxEscalations + 1 - 0) 0 n hn
    omega
  · intro c hc
    have hz : cfg.maxEscalations + 1 - c = 0 := by omega
    simp [runChainFrom, hz, runChainFuel]

/-- Claim C3, witness: with the default maximum of 1 escalation, an
always-refusing handler and a never-blocking output guard, the chain
dispatches attempts 0 and 1 only, attempt 1 is within the cap, and a
chain entered at count 2 blocks with `escalation_limit_exceeded` without
dispatching. -/
theorem claim3_escalation_cap_witness :
    1 ≤ (DispatcherConfig.mk 1).maxEscalations
    ∧ (∀ c, (DispatcherConfig.mk 1).maxEscalations < c →
        runChainFrom (DispatcherConfig.mk 1)
          (fun _ => { blocked := false, reason := "", confidence := 0, severity := Severity.low })
          (fun _ => { content := "c", handler_id := "h", refusal := true }) c =
          (TurnOutcome.BLOCKED "escalation_limit_exceeded", [])) :=
  claim3_escalation_cap (DispatcherConfig.mk 1)
    (fun _ => { blocked := false, reason := "", confidence := 0, severity := Severity.low })
    (fun _ => { content := "c", handler_id := "h", refusal := true })
    1 (by decide)

/-- Modelled from the spec: the opaque collaborators one turn of the
Dispatcher consumes (sections 4.2, 4.3, 5 and 6): the input Guard's
verdict, the classification backend, whether the caller cancelled the
turn before OUTPUT_CHECKED completed, the handler invocation (per
category and escalation attempt), and the output Guard. -/
structure TurnOracle where
  inputVerdict : GuardVerdict
  classifierBackend : Except String (Category × ℚ × String)
  cancelled : Bool
  invoke : Category → ℕ → Response
  outputGuard : Response → GuardVerdict

/-- Modelled from the spec: one run of the Dispatcher state machine
RECEIVED → INPUT_CHECKED → CLASSIFIED → HANDLING → OUTPUT_CHECKED →
{ACCEPTED, ESCALATED, BLOCKED} (sections 4.3 and 5).  A blocked input
verdict terminates the turn at INPUT_CHECKED with the session untouched;
a cancellation before OUTPUT_CHECKED completes terminates it with the
session untouched; otherwise the turn chain runs and only a full
ACCEPTED transition appends to the session history. -/
def runTurn (cfg : DispatcherConfig) (ccfg : ClassifierConfig) (o : TurnOracle)
    (req : Request) (session : SessionState) : TurnOutcome × SessionState :=
  if o.inputVerdict.blocked then
    (TurnOutcome.BLOCKED o.inputVerdict.reason, session)
  else if o.cancelled then
    (TurnOutcome.BLOCKED "cancelled", session)
  else
    let c := classify ccfg o.classifierBackend
    match (runChain cfg o.outputGuard (o.invoke c.1)).1 with
    | TurnOutcome.ACCEPTED resp =>
      (TurnOutcome.ACCEPTED resp, session.append_turn req resp resp.handler_id)
    | TurnOutcome.BLOCKED r => (TurnOutcome.BLOCKED r, session)

/-- Claim C2: a turn whose input verdict has `blocked = true` terminates
in BLOCKED with the input Guard's reason and leaves the session's
conversational history exactly as it was before the turn — the blocked
request is never appended, so it is never model input for later turns. -/
theorem claim2_blocked_input_keeps_history (cfg : DispatcherConfig)
    (ccfg : ClassifierConfig) (o : TurnOracle) (req : Request) (session : SessionState)
    (hb : o.inputVerdict.blocked = true) :
    (runTurn cfg ccfg o req session).2.history = session.history
    ∧ (runTurn cfg ccfg o req session).1 = TurnOutcome.BLOCKED o.inputVerdict.reason := by
  constructor <;> simp [runTurn, hb]

/-- Claim C2, witness: a concrete blocked turn on a one-turn session. -/
theorem claim2_blocked_input_keeps_history_witness :
    (runTurn (DispatcherConfig.mk 1) (ClassifierConfig.mk (1/2))
      { inputVerdict := { blocked := true, reason := "policy", confidence := 1, severity := Severity.high },
        classifierBackend := Except.error "down",
        cancelled := false,
        invoke := fun _ _ => { content := "c", handler_id := "h", refusal := false },
        outputGuard := fun _ => { blocked := false, reason := "", confidence := 0, severity := Severity.low } }
      { text := "hi", timestamp := 1, session_id := 0 }
      { history := [{ request := { text := "t0", timestamp := 0, session_id := 0 },
                      response := { content := "r0", handler_id := "h", refusal := false },
                      handler_id := "h" }],
        turn_counter := 1, preferences := [] }).2.history =
      [{ request := { text := "t0", timestamp := 0, session_id := 0 },
         response := { content := "r0", handler_id := "h", refusal := false },
         handler_id := "h" }]
    ∧ (runTurn (DispatcherConfig.mk 1) (ClassifierConfig.mk (1/2))
      { inputVerdict := { blocked := true, reason := "policy", confidence := 1, severity := Severity.high },
        classifierBackend := Except.error "down",
        cancelled := false,
        invoke := fun _ _ => { content := "c", handler_id := "h", refusal := false },
        outputGuard := fun _ => { blocked := false, reason := "", confidence := 0, severity := Severity.low } }
      { text := "hi", timestamp := 1, session_id := 0 }
      { history := [{ request := { text := "t0", timestamp := 0, session_id := 0 },
                      response := { content := "r0", handler_id := "h", refusal := false },
                      handler_id := "h" }],
        turn_counter := 1, preferences := [] }).1 = TurnOutcome.BLOCKED "policy" :=
  claim2_blocked_input_keeps_history (DispatcherConfig.mk 1) (ClassifierConfig.mk (1/2))
    { inputVerdict := { blocked := true, reason := "policy", confidence := 1, severity := Severity.high },
      classifierBackend := Except.error "down",
      cancelled := false,
      invoke := fun _ _ => { content := "c", handler_id := "h", refusal := false },
      outputGuard := fun _ => { blocked := false, reason := "", confidence := 0, severity := Severity.low } }
    { text := "hi", timestamp := 1, session_id := 0 }
    { history := [{ request := { text := "t0", timestamp := 0, session_id := 0 },
                    response := { content := "r0", handler_id := "h", refusal := false },
                    handler_id := "h" }],
      turn_counter := 1, preferences := [] }
    rfl

/-- Claim C7: no partial append.  A turn the caller cancelled before
OUTPUT_CHECKED completed leaves the history unchanged, and in general a
turn either completes the full ACCEPTED transition and appends exactly
its own (request, response, handler) entry, or leaves the history
exactly as it was. -/
theorem claim7_no_partial_append (cfg : DispatcherConfig) (ccfg : ClassifierConfig)
    (o : TurnOracle) (req : Request) (session : SessionState) :
    (o.cancelled = true → (runTurn cfg ccfg o req session).2.history = session.history)
    ∧ ((runTurn cfg ccfg o req session).2.history = session.history
      ∨ ∃ resp, (runTurn cfg ccfg o req session).1 = TurnOutcome.ACCEPTED resp
          ∧ (runTurn cfg ccfg o req session).2.history =
              session.history ++ [{ request := req, response := resp, handler_id := resp.handler_id }]) := by
  constructor
  · intro hc
    by_cases hb : o.inputVerdict.blocked <;> simp [runTurn, hb, hc]
  · by_cases hb : o.inputVerdict.blocked
    · exact Or.inl (by simp [runTurn, hb])
    · by_cases hc : o.cancelled
      · exact Or.inl (by simp [runTurn, hb, hc])
      · rcases hm : (runChain cfg o.outputGuard
            (o.invoke (classify ccfg o.classifierBackend).1)).1 with resp | r
        · refine Or.inr ⟨resp, ?_, ?_⟩ <;>
            simp [runTurn, hb, hc, hm, SessionState.append_turn]
        · exact Or.inl (by simp [runTurn, hb, hc, hm])

/-- `appendMany` only ever appends, in batch order. -/
theorem appendMany_history (ts : List (Request × Response × String)) :
    ∀ (s : SessionState), (s.appendMany ts).history = s.history ++ ts.map mkTurn := by
  induction ts with
  | nil => intro s; simp [SessionState.appendMany]
  | cons t ts ih =>
    intro s
    simp [SessionState.appendMany, ih, SessionState.append_turn, mkTurn]

/-- Claim C5: the session history is append-only and in insertion order
(a batch of `append_turn` calls extends the history by exactly the batch,
in order, removing and reordering nothing), and for every
`n ≤` the number of turns, `historyWithLimit n` is exactly the length-`n`
suffix of the history: the `n` most recently appended turns, still in
insertion order. -/
theorem claim5_history_limit (s : SessionState)
    (ts : List (Request × Response × String)) (n : ℕ) (hn : n ≤ s.history.length) :
    (s.appendMany ts).history = s.history ++ ts.map mkTurn
    ∧ (s.historyWithLimit n).length = n
    ∧ s.history = s.history.take (s.history.length - n) ++ s.historyWithLimit n := by
  refine ⟨appendMany_history ts s, ?_, ?_⟩
  · simp [SessionState.historyWithLimit]
    omega
  · simp [SessionState.historyWithLimit]

/-- Claim C5, witness: on a concrete two-turn session, appending one more
turn extends the history by exactly that turn, and `historyWithLimit 1`
is the most recent turn. -/
theorem claim5_history_limit_witness :
    ((SessionState.mk
        [{ request := { text := "t0", timestamp := 0, session_id := 0 },
           response := { content := "r0", handler_id := "h", refusal := false },
           handler_id := "h" },
         { request := { text := "t1", timestamp := 1, session_id := 0 },
           response := { content := "r1", handler_id := "h", refusal := false },
           handler_id := "h" }] 2 []).appendMany
        [({ text := "t2", timestamp := 2, session_id := 0 },
          { content := "r2", handler_id := "h", refusal := false }, "h")]).history =
      (SessionState.mk
        [{ request := { text := "t0", timestamp := 0, session_id := 0 },
           response := { content := "r0", handler_id := "h", refusal := false },
           handler_id := "h" },
         { request := { text := "t1", timestamp := 1, session_id := 0 },
           response := { content := "r1", handler_id := "h", refusal := false },
           handler_id := "h" }] 2 []).history ++
        [({ text := "t2", timestamp := 2, session_id := 0 },
          { content := "r2", handler_id := "h", refusal := false }, ("h" : String))].map mkTurn
    ∧ ((SessionState.mk
        [{ request := { text := "t0", timestamp := 0, session_id := 0 },
           response := { content := "r0", handler_id := "h", refusal := false },
           handler_id := "h" },
         { request := { text := "t1", timestamp := 1, session_id := 0 },
           response := { content := "r1", handler_id := "h", refusal := false },
           handler_id := "h" }] 2 []).historyWithLimit 1).length = 1
    ∧ (SessionState.mk
        [{ request := { text := "t0", timestamp := 0, session_id := 0 },
           response := { content := "r0", handler_id := "h", refusal := false },
           handler_id := "h" },
         { request := { text := "t1", timestamp := 1, session_id := 0 },
           response := { content := "r1", handler_id := "h", refusal := false },
           handler_id := "h" }] 2 []).history =
        (SessionState.mk
        [{ request := { text := "t0", timestamp := 0, session_id := 0 },
           response := { content := "r0", handler_id := "h", refusal := false },
           handler_id := "h" },
         { request := { text := "t1", timestamp := 1, session_id := 0 },
           response := { content := "r1", handler_id := "h", refusal := false },
           handler_id := "h" }] 2 []).history.take
          ((SessionState.mk
        [{ request := { text := "t0", timestamp := 0, session_id := 0 },
           response := { content := "r0", handler_id := "h", refusal := false },
           handler_id := "h" },
         { request := { text := "t1", timestamp := 1, session_id := 0 },
           response := { content := "r1", handler_id := "h", refusal := false },
           handler_id := "h" }] 2 []).history.length - 1) ++
          (SessionState.mk
        [{ request := { text := "t0", timestamp := 0, session_id := 0 },
           response := { content := "r0", handler_id := "h", refusal := false },
           handler_id := "h" },
         { request := { text := "t1", timestamp := 1, session_id := 0 },
           response := { content := "r1", handler_id := "h", refusal := false },
           handler_id := "h" }] 2 []).historyWithLimit 1 :=
  claim5_history_limit
    (SessionState.mk
      [{ request := { text := "t0", timestamp := 0, session_id := 0 },
         response := { content := "r0", handler_id := "h", refusal := false },
         handler_id := "h" },
       { request := { text := "t1", timestamp := 1, session_id := 0 },
         response := { content := "r1", handler_id := "h", refusal := false },
         handler_id := "h" }] 2 [])
    [({ text := "t2", timestamp := 2, session_id := 0 },
      { content := "r2", handler_id := "h", refusal := false }, "h")]
    1 (by decide)

/-- Claim C6: the Classifier never raises (it is a total Lean function)
and on a backend error it returns category `GENERAL` with confidence `0`
and rationale `"classifier_unavailable"`, so routing always has a
destination; on a successful backend result it returns the backend's
category unless the confidence is below the configured threshold, in
which case it defaults to `GENERAL`. -/
theorem claim6_classifier_unavailable (ccfg : ClassifierConfig) (e : String)
    (cat : Category) (conf : ℚ) (rationale : String) :
    classify ccfg (Except.error e) = (Category.GENERAL, 0, "classifier_unavailable")
    ∧ (classify ccfg (Except.ok (cat, conf, rationale))).1 =
        (if conf < ccfg.threshold then Category.GENERAL else cat) := by
  refine ⟨rfl, ?_⟩
  simp only [classify]
  split <;> rfl
